import Mathlib

/-!
Verification of the pinamap repository: a map application where users drop
geolocated "memories" (message, receiver, optional photo) and search them by
receiver.  The definitions below are shallow embeddings of the repository's
route handlers (`src/app/api/search/route.ts`, the submit route) and of the
client-side components (the `LocationSearch` type-ahead controller and the
memory `Panel` form).
-/

namespace Pinamap

/-! ## Data model: persisted memory rows -/

/-- A persisted memory row, as stored in the `messages` table.  Coordinates
are modelled as integers: none of the verified behaviour inspects their
numeric value. -/
structure Memory where
  id : Nat
  message : String
  receiver : String
  latitude : Int
  longitude : Int
deriving DecidableEq, Repr

/-! ## SQL ILIKE semantics

The search route runs `.filter('receiver', 'ilike', search)` on the backend,
passing the user's search string verbatim as the pattern.  The following
definitions model PostgreSQL `LIKE`/`ILIKE` matching: the pattern must match
the WHOLE string, `%` matches any (possibly empty) sequence, `_` matches
exactly one character, and `ILIKE` compares case-insensitively (modelled here
by ASCII case folding, which is all the development needs). -/

/-- ASCII case folding used to model ILIKE's case-insensitive comparison. -/
def charLower (c : Char) : Char :=
  if 65 ≤ c.toNat ∧ c.toNat ≤ 90 then Char.ofNat (c.toNat + 32) else c

/-- Whitespace recognizer for the model of JavaScript's `String.trim`. -/
def isSpaceChar (c : Char) : Bool :=
  c = ' ' || c = '\t' || c = '\n' || c = '\r'

/-- Model of JavaScript's `String.prototype.trim`: strip leading and
trailing whitespace. -/
def trimStr (s : String) : String :=
  String.mk (((s.data.dropWhile isSpaceChar).reverse.dropWhile
    isSpaceChar).reverse)

/-- All suffixes of a character list, longest first. -/
def suffixes : List Char → List (List Char)
  | [] => [[]]
  | c :: cs => (c :: cs) :: suffixes cs

/-- `likeMatch pat s` : does SQL pattern `pat` match the whole string `s`?
A `%` consumes an arbitrary prefix, i.e. the rest of the pattern must match
some suffix of the string. -/
def likeMatch : List Char → List Char → Bool
  | [], s => s.isEmpty
  | p :: ps, s =>
    if p = '%' then
      (suffixes s).any (fun t => likeMatch ps t)
    else
      match s with
      | [] => false
      | c :: cs => (if p = '_' then true else p = c) && likeMatch ps cs

/-- `ilike pat s` : case-insensitive SQL pattern match, as performed by the
backend for `.filter('receiver', 'ilike', pat)`. -/
def ilike (pat s : String) : Bool :=
  likeMatch (pat.data.map charLower) (s.data.map charLower)

/-- The records returned by the backend query of the search route:
`supabase.from('messages').select('*').filter('receiver', 'ilike', search)`. -/
def searchByReceiver (db : List Memory) (search : String) : List Memory :=
  db.filter (fun m => ilike search m.receiver)

/-! ## Spec-side definition for the refinement claim about search

The spec describes search as "case-insensitive substring match".  The
definitions below follow the spec's words, to be compared with
`searchByReceiver` above. -/

/-- `startsWithL s p` : is `p` a prefix of `s` (as character lists)? -/
def startsWithL : List Char → List Char → Bool
  | _, [] => true
  | [], _ :: _ => false
  | c :: cs, d :: ds => c = d && startsWithL cs ds

/-- `containsSub hay needle` : does `needle` occur as a contiguous substring
of `hay`? -/
def containsSub (hay needle : List Char) : Bool :=
  (suffixes hay).any (fun t => startsWithL t needle)

/-- Spec-words predicate: `needle` occurs in `hay`, compared
case-insensitively. -/
def substrCI (hay needle : String) : Bool :=
  containsSub (hay.data.map charLower) (needle.data.map charLower)

/-- Spec-words search: "returns exactly the memories whose receiver field
contains s as a substring, compared case-insensitively". -/
def specSearchByReceiver (db : List Memory) (search : String) : List Memory :=
  db.filter (fun m => substrCI m.receiver search)

/-! ## The search route handler (GET /api/search) -/

/-- Possible responses of the search route. -/
inductive SearchResp
  | badRequest
  | serverError
  | ok (rows : List Memory)
deriving DecidableEq, Repr

/-- The GET handler of `src/app/api/search/route.ts`.  `receiverParam` is
`searchParams.get('receiver')` (`none` when absent); `!search` is true for
`null` and for the empty string.  `dbFails` says whether the backend query
reports an error. -/
def searchGET (receiverParam : Option String) (db : List Memory)
    (dbFails : Bool) : SearchResp :=
  match receiverParam with
  | none => .badRequest
  | some s =>
    if s = "" then .badRequest
    else if dbFails then .serverError
    else .ok (searchByReceiver db s)

/-! ## The submit route handler (POST /api/submit)

The handler accepts either a JSON body (no field validation, `has_image`
false) or a multipart body (fields validated, optional image uploaded to blob
storage before the database insert; the upload is compensated by a
`storage.remove` when the insert fails). -/

/-- An uploaded file, as delivered by `formData.get('image')`. -/
structure UploadedImage where
  name : String
  size : Nat
deriving DecidableEq, Repr

/-- A JSON submit body; every field may be absent. -/
structure JsonBody where
  message : Option String
  receiver : Option String
  latitude : Option Int
  longitude : Option Int
deriving DecidableEq, Repr

/-- A submit request: JSON body, or multipart form fields (each `none` when
`formData.get` returns `null`) plus an optional image file. -/
inductive CreateReq
  | json (body : JsonBody)
  | multipart (message receiver latitude longitude : Option String)
      (image : Option UploadedImage)
deriving DecidableEq, Repr

/-- External outcomes the handler depends on: whether the database insert
errors, whether the blob upload errors, and the generated file name (a v4
UUID in the source, abstracted to an arbitrary string). -/
structure SubmitEnv where
  dbInsertFails : Bool
  uploadFails : Bool
  freshName : String
deriving DecidableEq, Repr

/-- Possible responses of the submit route. -/
inductive SubmitRouteResp
  | ok
  | badRequest
  | serverError
deriving DecidableEq, Repr

/-- Observable outcome of one submit request: the HTTP response, whether a
database insert was attempted, whether a row was actually inserted, and the
final set of blob paths in storage. -/
structure SubmitOutcome where
  resp : SubmitRouteResp
  insertAttempted : Bool
  inserted : Bool
  blobs : List String
deriving DecidableEq, Repr

/-- JS falsiness of a nullable string: `!x` holds for `null` and `""`. -/
def falsyOpt : Option String → Bool
  | none => true
  | some s => s = ""

/-- Split a character list at every `'.'`, keeping empty chunks, as
JavaScript's `split('.')` does. -/
def splitDot : List Char → List (List Char)
  | [] => [[]]
  | c :: cs =>
    if c = '.' then [] :: splitDot cs
    else
      match splitDot cs with
      | [] => [[c]]
      | h :: t => (c :: h) :: t

/-- `imageFile.name.split('.').pop()`. -/
def fileExt (n : String) : String :=
  String.mk (((splitDot n.data).getLast?).getD [])

/-- The insert step shared by the multipart branch: insert the row, and on
error remove the uploaded image (when there is one) before responding 500. -/
def insertWithCleanup (env : SubmitEnv) (imagePath : Option String)
    (blobs : List String) : SubmitOutcome :=
  if env.dbInsertFails then
    { resp := .serverError, insertAttempted := true, inserted := false,
      blobs :=
        match imagePath with
        | some p => blobs.filter (fun q => q ≠ p)
        | none => blobs }
  else
    { resp := .ok, insertAttempted := true, inserted := true, blobs := blobs }

/-- The POST handler of the submit route (`app/api/submit/route.ts`), acting
on an initial blob store `blobs0`.  The JSON branch inserts without any
validation; the multipart branch returns 400 when any of the four text fields
is missing or empty, uploads the image when one with positive size is
present, and compensates a failed insert by removing the uploaded blob. -/
def submitPOST (req : CreateReq) (env : SubmitEnv) (blobs0 : List String) :
    SubmitOutcome :=
  match req with
  | .json _ =>
    if env.dbInsertFails then
      { resp := .serverError, insertAttempted := true, inserted := false,
        blobs := blobs0 }
    else
      { resp := .ok, insertAttempted := true, inserted := true,
        blobs := blobs0 }
  | .multipart message receiver latitude longitude image =>
    if falsyOpt message || falsyOpt receiver ||
        falsyOpt latitude || falsyOpt longitude then
      { resp := .badRequest, insertAttempted := false, inserted := false,
        blobs := blobs0 }
    else
      match image with
      | some file =>
        if 0 < file.size then
          let path := "images/" ++ env.freshName ++ "." ++ fileExt file.name
          if env.uploadFails then
            { resp := .serverError, insertAttempted := false,
              inserted := false, blobs := blobs0 }
          else
            insertWithCleanup env (some path) (blobs0 ++ [path])
        else
          insertWithCleanup env none blobs0
      | none => insertWithCleanup env none blobs0

/-! ## The LocationSearch type-ahead controller

Shallow embedding of the `LocationSearch` component: its React state becomes
`SearchState`, each handler becomes a state transformer that additionally
emits the observable effects (network requests and the `onLocationSelect` /
`onTempMarker` callbacks).  Network responses are supplied as oracle
arguments, so one handler invocation is atomic from the suspension at the
`fetch` to the end of its `finally` block. -/

/-- A suggestion's `context` object: optional country/region/place names. -/
structure SuggestCtx where
  country : Option String
  region : Option String
  place : Option String
deriving DecidableEq, Repr

/-- A candidate returned by the suggest endpoint. -/
structure SearchBoxSuggestion where
  name : String
  name_preferred : Option String
  mapbox_id : String
  feature_type : String
  context : Option SuggestCtx
deriving DecidableEq, Repr

/-- A feature returned by the retrieve endpoint: coordinates plus name
properties. -/
structure RetrieveFeature where
  lng : Int
  lat : Int
  name : String
  name_preferred : Option String
deriving DecidableEq, Repr

/-- Outcome of a suggest network call: non-success status (or thrown parse
error), or a parsed suggestion list. -/
inductive SuggestResp
  | fail
  | ok (suggestions : List SearchBoxSuggestion)
deriving DecidableEq, Repr

/-- Outcome of a retrieve network call. -/
inductive RetrieveResp
  | fail
  | ok (features : List RetrieveFeature)
deriving DecidableEq, Repr

/-- The component state of `LocationSearch`.  `debounceTimer` is the pending
`setTimeout` callback: the captured query together with the delay it was
armed with.  Session tokens are modelled as natural numbers drawn from the
fresh counter `nextToken`: the source generates random v4 UUIDs, whose only
relied-upon property is freshness. -/
structure SearchState where
  searchTerm : String
  isSearching : Bool
  results : List SearchBoxSuggestion
  showResults : Bool
  debounceTimer : Option (String × Nat)
  sessionToken : Nat
  nextToken : Nat
deriving DecidableEq, Repr

/-- The debounce quiet period: `setTimeout(..., 300)`. -/
def debounceDelayMs : Nat := 300

/-- Generate a fresh session token from the freshness counter, returning the
token and the advanced counter. -/
def generateSessionToken (n : Nat) : Nat × Nat := (n, n + 1)

/-- Initial component state: empty query, no results, hidden panel, a session
token generated once at initialisation. -/
def initialSearchState : SearchState :=
  { searchTerm := "", isSearching := false, results := [],
    showResults := false, debounceTimer := none,
    sessionToken := (generateSessionToken 0).1,
    nextToken := (generateSessionToken 0).2 }

/-- Observable effects of the controller. -/
inductive SearchEffect
  | suggestRequest (q : String) (token : Nat)
  | retrieveRequest (id : String) (token : Nat)
  | locationSelect (lng lat : Int)
  | tempMarker (lng lat : Int)
deriving DecidableEq, Repr

/-- JS `a || b` for a nullable string `a`: the fallback when `a` is `null`
or empty. -/
def prefOrName (o : Option String) (fallback : String) : String :=
  match o with
  | some p => if p = "" then fallback else p
  | none => fallback

/-- `fetchSearchSuggestions(query)`: early-return on a whitespace-only query
(clearing results and hiding the panel, no network call); otherwise issue the
suggest request with the current session token and process the response —
on success store the suggestions and show the panel iff the list is
non-empty, on failure clear the results (the panel flag is left as-is). -/
def fetchSearchSuggestions (s : SearchState) (query : String)
    (resp : SuggestResp) : SearchState × List SearchEffect :=
  if trimStr query = "" then
    ({ s with results := [], showResults := false }, [])
  else
    match resp with
    | .ok sugs =>
      ({ s with isSearching := false, results := sugs,
                showResults := decide (0 < sugs.length) },
       [.suggestRequest query s.sessionToken])
    | .fail =>
      ({ s with isSearching := false, results := [] },
       [.suggestRequest query s.sessionToken])

/-- `handleInputChange`: set the displayed query synchronously, cancel any
pending debounce timer and arm a new one capturing the typed query. -/
def handleInputChange (s : SearchState) (query : String) :
    SearchState × List SearchEffect :=
  ({ s with searchTerm := query,
            debounceTimer := some (query, debounceDelayMs) }, [])

/-- The debounce timer firing: runs `fetchSearchSuggestions` on the captured
query.  A cancelled (absent) timer never fires. -/
def debounceFire (s : SearchState) (resp : SuggestResp) :
    SearchState × List SearchEffect :=
  match s.debounceTimer with
  | none => (s, [])
  | some (q, _) =>
    fetchSearchSuggestions { s with debounceTimer := none } q resp

/-- `retrieveLocation(mapboxId)`: issue the retrieve request with the current
session token; when the response is successful and carries at least one
feature, emit the location-selected and temporary-marker callbacks, replace
the query text with the resolved name (preferred name first) and rotate the
session token; in every case end with `isSearching` false and the results
panel hidden (the `finally` block). -/
def retrieveLocation (s : SearchState) (mapboxId : String)
    (resp : RetrieveResp) : SearchState × List SearchEffect :=
  match resp with
  | .fail =>
    ({ s with isSearching := false, showResults := false },
     [.retrieveRequest mapboxId s.sessionToken])
  | .ok feats =>
    match feats with
    | [] =>
      ({ s with isSearching := false, showResults := false },
       [.retrieveRequest mapboxId s.sessionToken])
    | f :: _ =>
      ({ s with isSearching := false, showResults := false,
                searchTerm := prefOrName f.name_preferred f.name,
                sessionToken := (generateSessionToken s.nextToken).1,
                nextToken := (generateSessionToken s.nextToken).2 },
       [.retrieveRequest mapboxId s.sessionToken,
        .locationSelect f.lng f.lat, .tempMarker f.lng f.lat])

/-- `handleKeyDown` on Enter: with visible results, retrieve the first one;
otherwise, with a non-blank query, fetch suggestions immediately (debounce
bypass); otherwise do nothing. -/
def handleKeyDown (s : SearchState) (sresp : SuggestResp)
    (rresp : RetrieveResp) : SearchState × List SearchEffect :=
  match s.results with
  | r :: _ => retrieveLocation s r.mapbox_id rresp
  | [] =>
    if trimStr s.searchTerm ≠ "" then fetchSearchSuggestions s s.searchTerm sresp
    else (s, [])

/-- `handleResultClick`: retrieve the clicked suggestion. -/
def handleResultClick (s : SearchState) (sug : SearchBoxSuggestion)
    (rresp : RetrieveResp) : SearchState × List SearchEffect :=
  retrieveLocation s sug.mapbox_id rresp

/-- The mousedown-outside listener: hide the results panel. -/
def handleClickOutside (s : SearchState) : SearchState × List SearchEffect :=
  ({ s with showResults := false }, [])

/-- The controller's input events.  Network responses ride along as oracle
data for the handler that consumes them. -/
inductive SearchEvent
  | input (q : String)
  | timerFire (resp : SuggestResp)
  | enterKey (sresp : SuggestResp) (rresp : RetrieveResp)
  | resultClick (sug : SearchBoxSuggestion) (rresp : RetrieveResp)
  | clickOutside
deriving Repr

/-- One step of the controller. -/
def searchStep (s : SearchState) : SearchEvent → SearchState × List SearchEffect
  | .input q => handleInputChange s q
  | .timerFire resp => debounceFire s resp
  | .enterKey sresp rresp => handleKeyDown s sresp rresp
  | .resultClick sug rresp => handleResultClick s sug rresp
  | .clickOutside => handleClickOutside s

/-- Run a sequence of events, accumulating the emitted effects. -/
def runEvents (s : SearchState) (es : List SearchEvent) :
    SearchState × List SearchEffect :=
  es.foldl
    (fun acc e =>
      ((searchStep acc.1 e).1, acc.2 ++ (searchStep acc.1 e).2))
    (s, [])

/-- Does a retrieve response succeed with at least one feature? -/
def retrieveSucceeds : RetrieveResp → Bool
  | .ok (_ :: _) => true
  | _ => false

/-- Does this event, from state `s`, perform a retrieve that succeeds with a
non-empty feature list? -/
def eventRetrieves (s : SearchState) : SearchEvent → Bool
  | .enterKey _ rresp => !s.results.isEmpty && retrieveSucceeds rresp
  | .resultClick _ rresp => retrieveSucceeds rresp
  | _ => false

/-- `array.join(', ')`. -/
def joinComma : List String → String
  | [] => ""
  | [a] => a
  | a :: rest => a ++ ", " ++ joinComma rest

/-- `getDisplayName`: a truthy preferred name wins outright; otherwise the
raw name, extended with the comma-joined list of whichever context names are
present, pushed in the order place, region, country. -/
def truthyStr (o : Option String) : Bool :=
  match o with
  | some s => s ≠ ""
  | none => false

/-- `context.push(name)` guarded by JS truthiness of the optional name. -/
def pushIfTruthy (o : Option String) (acc : List String) : List String :=
  match o with
  | some s => if s ≠ "" then acc ++ [s] else acc
  | none => acc

/-- The `context` array built by `getDisplayName`: place, then region, then
country, keeping only truthy names. -/
def contextNames (ctx : Option SuggestCtx) : List String :=
  match ctx with
  | none => []
  | some c => pushIfTruthy c.country (pushIfTruthy c.region (pushIfTruthy c.place []))

/-- `getDisplayName` from the `LocationSearch` component. -/
def getDisplayName (s : SearchBoxSuggestion) : String :=
  if truthyStr s.name_preferred then (s.name_preferred.getD "")
  else
    let base := prefOrName s.name_preferred s.name
    let ctx := contextNames s.context
    if 0 < ctx.length then base ++ ", " ++ joinComma ctx
    else base

/-- Spec-words display name: a candidate with a preferred name displays
exactly that name; otherwise the raw name followed by the present context
names in the fixed order place, region, country, all comma-joined. -/
def specDisplayName (s : SearchBoxSuggestion) : String :=
  match s.name_preferred with
  | some p => p
  | none =>
    joinComma (s.name :: contextNames s.context)

/-! ## The memory Panel form (`src/app/panel.tsx`, `handleSubmit`) -/

/-- The Panel state touched by `handleSubmit`: the two form fields, the
drag-controlled marker location, whether the form is open, and the inline
error message. -/
structure PanelFormState where
  message : String
  receiver : String
  markerLocation : Option (Int × Int)
  showForm : Bool
  errorMessage : Option String
deriving DecidableEq, Repr

/-- A row of `result.data` in a create response. -/
structure MemoryRow where
  id : Nat
  message : String
  receiver : String
  latitude : Int
  longitude : Int
  time : String
deriving DecidableEq, Repr

/-- The create request's outcome as seen by the Panel: a non-ok HTTP status,
or a parsed body whose `data` array is `rows`. -/
inductive PanelSubmitResp
  | httpError
  | ok (rows : List MemoryRow)
deriving DecidableEq, Repr

/-- The GeoJSON feature handed to `onNewPin`. -/
structure PinFeature where
  id : String
  message : String
  receiver : String
  time : String
  lng : Int
  lat : Int
deriving DecidableEq, Repr

/-- Result of one `handleSubmit` run: the updated Panel state, the feature
emitted through `onNewPin` (if any), and whether a create request was sent at
all. -/
structure PanelSubmitResult where
  state : PanelFormState
  newPin : Option PinFeature
  fetched : Bool
deriving DecidableEq, Repr

/-- `handleSubmit` from the Panel.  The error strings elide the dynamic
status-text suffix of `Failed to pin memory`.  A row with id 0 models a falsy
`newMemory.id`. -/
def handleSubmit (s : PanelFormState) (resp : PanelSubmitResp) :
    PanelSubmitResult :=
  let s0 : PanelFormState := { s with errorMessage := none }
  let markerMsg := "Please drag the marker to a location on the map."
  let fieldsMsg := "Please fill in all fields."
  let httpMsg := "Failed to pin memory"
  let invalidMsg := "Invalid response from server"
  match s.markerLocation with
  | none =>
    { state := { s0 with errorMessage := some markerMsg },
      newPin := none, fetched := false }
  | some _ =>
    if trimStr s.message = "" || trimStr s.receiver = "" then
      { state := { s0 with errorMessage := some fieldsMsg },
        newPin := none, fetched := false }
    else
      match resp with
      | .httpError =>
        { state := { s0 with errorMessage := some httpMsg },
          newPin := none, fetched := true }
      | .ok rows =>
        match rows.head? with
        | none =>
          { state := { s0 with errorMessage := some invalidMsg },
            newPin := none, fetched := true }
        | some row =>
          if row.id = 0 then
            { state := { s0 with errorMessage := some invalidMsg },
              newPin := none, fetched := true }
          else
            { state := { s0 with message := "", receiver := "",
                                 markerLocation := none, showForm := false },
              newPin := some { id := "msg" ++ toString row.id,
                               message := row.message,
                               receiver := row.receiver, time := row.time,
                               lng := row.longitude, lat := row.latitude },
              fetched := true }

/-- Does this submission attempt fail (no pin emitted)?  True when the marker
is unset, a trimmed field is blank, the request errors, or the response
carries no row with a truthy id. -/
def submitFails (s : PanelFormState) (resp : PanelSubmitResp) : Bool :=
  s.markerLocation.isNone || decide (trimStr s.message = "") ||
    decide (trimStr s.receiver = "") ||
    (match resp with
     | .httpError => true
     | .ok rows =>
       match rows.head? with
       | none => true
       | some row => decide (row.id = 0))

/-! ## Auxiliary predicates and concrete instances used by the theorems -/

/-- Lowercased string, the comparison key of ILIKE. -/
def lowerStr (s : String) : String :=
  String.mk (s.data.map charLower)

/-- `s` contains no SQL wildcard character. -/
def noWildcard (s : String) : Bool :=
  s.data.all (fun c => c ≠ '%' && c ≠ '_')

/-- A stored memory whose receiver strictly contains the word "alice". -/
def cexMem : Memory :=
  { id := 1, message := "hi", receiver := "Alice Smith",
    latitude := 10, longitude := 20 }

/-- A JSON create body with no message field. -/
def jsonNoMessage : JsonBody :=
  { message := none, receiver := some "bob", latitude := some 1,
    longitude := some 2 }

/-- A submit environment where both backends succeed. -/
def envAllOk : SubmitEnv :=
  { dbInsertFails := false, uploadFails := false, freshName := "uuid1" }

/-- A submit environment where the upload succeeds but the insert fails. -/
def envInsertFails : SubmitEnv :=
  { dbInsertFails := true, uploadFails := false, freshName := "uuid1" }

/-- A concrete uploaded image. -/
def photoFile : UploadedImage := { name := "photo.png", size := 4 }

/-- A suggestion with no preferred name and place/country context. -/
def cafeX : SearchBoxSuggestion :=
  { name := "Cafe X", name_preferred := none, mapbox_id := "idX",
    feature_type := "poi",
    context := some { country := some "France", region := none,
                      place := some "Paris" } }

/-- A suggestion with a preferred name and (ignored) context. -/
def cafeY : SearchBoxSuggestion :=
  { name := "Cafe Y old", name_preferred := some "Cafe Y",
    mapbox_id := "idY", feature_type := "poi",
    context := some { country := some "France", region := none,
                      place := some "Paris" } }

/-- A concrete retrieved feature. -/
def parisFeature : RetrieveFeature :=
  { lng := 2, lat := 48, name := "Paris", name_preferred := none }

/-- A Panel state with the marker set and both fields filled. -/
def panelReady : PanelFormState :=
  { message := "hi", receiver := "bob", markerLocation := some (10, 20),
    showForm := true, errorMessage := none }

/-- A successful create response body with one row. -/
def panelRespOk : PanelSubmitResp :=
  .ok [{ id := 5, message := "hi", receiver := "bob", latitude := 20,
         longitude := 10, time := "t" }]

/-! ## Theorems -/

/-- `Char.ofNat` round-trips on valid code points below the surrogate
range. -/
theorem toNat_ofNat_of_lt {n : Nat} (h : n < 55296) :
    (Char.ofNat n).toNat = n := by
  unfold Char.ofNat
  split
  · rfl
  · rename_i hv
    exact absurd (Or.inl h) hv

/-- Case folding cannot produce a character outside the lowercase-letter
range unless it was that character already. -/
theorem charLower_eq_symbol {c d : Char}
    (hd : d.toNat < 97 ∨ 122 < d.toNat) (h : charLower c = d) : c = d := by
  unfold charLower at h
  split at h
  · rename_i hr
    have h' := congrArg Char.toNat h
    rw [toNat_ofNat_of_lt (by omega)] at h'
    omega
  · exact h

/-- Folding a wildcard-free pattern stays wildcard-free. -/
theorem noWildcard_map {s : String} (h : noWildcard s = true) :
    ∀ c ∈ s.data.map charLower, c ≠ '%' ∧ c ≠ '_' := by
  intro c hc
  rcases List.mem_map.mp hc with ⟨a, ha, rfl⟩
  have h' := (List.all_eq_true.mp h) a ha
  simp only [Bool.and_eq_true, decide_eq_true_eq] at h'
  constructor
  · intro he
    exact h'.1 (charLower_eq_symbol (by decide) he)
  · intro he
    exact h'.2 (charLower_eq_symbol (by decide) he)

/-- On a wildcard-free pattern, SQL LIKE is exact (whole-string) equality. -/
theorem likeMatch_no_wild (ps : List Char)
    (h : ∀ c ∈ ps, c ≠ '%' ∧ c ≠ '_') :
    ∀ cs : List Char, likeMatch ps cs = decide (ps = cs) := by
  induction ps with
  | nil =>
    intro cs
    cases cs <;> simp [likeMatch]
  | cons p ps ih =>
    intro cs
    have hp := h p (List.mem_cons_self _ _)
    have hps : ∀ c ∈ ps, c ≠ '%' ∧ c ≠ '_' :=
      fun c hc => h c (List.mem_cons_of_mem _ hc)
    cases cs with
    | nil => simp [likeMatch, hp.1]
    | cons c cs =>
      simp [likeMatch, hp.1, hp.2, ih hps cs, List.cons.injEq, Bool.decide_and]

/-- ILIKE with a wildcard-free pattern compares lowercased strings for
equality. -/
theorem ilike_no_wild {s : String} (h : noWildcard s = true) (r : String) :
    ilike s r = decide (lowerStr s = lowerStr r) := by
  unfold ilike
  rw [likeMatch_no_wild _ (noWildcard_map h)]
  apply decide_eq_decide.mpr
  constructor
  · intro he
    simpa [lowerStr] using congrArg String.mk he
  · intro he
    simp only [lowerStr] at he
    injection he

/-- C1 counterexample: the receiver "Alice Smith" contains "alice" as a
case-insensitive substring (so the claimed substring search returns the
memory), but the implemented search, which passes "alice" verbatim as an
ILIKE pattern, returns nothing. -/
theorem searchByReceiver_not_substring_cex :
    substrCI cexMem.receiver "alice" = true ∧
    specSearchByReceiver [cexMem] "alice" = [cexMem] ∧
    searchByReceiver [cexMem] "alice" = [] := by
  decide

/-- C1 (amended): for a wildcard-free search string, `searchByReceiver`
returns exactly the memories whose receiver matches the whole search string
case-insensitively (not substring containment); in particular searching
"ALICE" and "alice" yields the same list. -/
theorem searchByReceiver_ilike_exact (db : List Memory) (s : String)
    (h : noWildcard s = true) :
    searchByReceiver db s =
      db.filter (fun m => decide (lowerStr s = lowerStr m.receiver)) ∧
    searchByReceiver db "ALICE" = searchByReceiver db "alice" := by
  constructor
  · unfold searchByReceiver
    apply List.filter_congr
    intro m _
    exact ilike_no_wild h m.receiver
  · unfold searchByReceiver
    apply List.filter_congr
    intro m _
    unfold ilike
    rw [show "ALICE".data.map charLower = "alice".data.map charLower from
      by decide]

/-- Witness for C1 (amended) at a concrete store and search string. -/
theorem searchByReceiver_ilike_exact_witness :
    noWildcard "alice" = true ∧
    (searchByReceiver [cexMem] "alice" =
        [cexMem].filter
          (fun m => decide (lowerStr "alice" = lowerStr m.receiver)) ∧
      searchByReceiver [cexMem] "ALICE" = searchByReceiver [cexMem] "alice") :=
  ⟨by decide, searchByReceiver_ilike_exact [cexMem] "alice" (by decide)⟩

/-- C7: the search endpoint responds 400 exactly when the receiver parameter
is absent or empty, and on a present non-empty parameter with a healthy
backend it responds with the matching rows. -/
theorem searchGET_validation (p : Option String) (db : List Memory)
    (dbFails : Bool) :
    (searchGET p db dbFails = .badRequest ↔ p = none ∨ p = some "") ∧
    (∀ s, p = some s → s ≠ "" → dbFails = false →
      searchGET p db dbFails = .ok (searchByReceiver db s)) := by
  constructor
  · cases p with
    | none => simp [searchGET]
    | some s =>
      by_cases hs : s = "" <;> cases dbFails <;> simp [searchGET, hs]
  · intro s hp hs hdb
    subst hp
    subst hdb
    simp [searchGET, hs]

/-- Witness for C7 at a concrete request. -/
theorem searchGET_validation_witness :
    searchGET (some "bob") [cexMem] false =
      .ok (searchByReceiver [cexMem] "bob") :=
  (searchGET_validation (some "bob") [cexMem] false).2 "bob" rfl
    (by decide) rfl

/-- C2 counterexample: a JSON create request with no message field is not
rejected with a 400; the handler inserts the record and responds success. -/
theorem submitPOST_json_no_validation_cex :
    (submitPOST (.json jsonNoMessage) envAllOk []).resp = .ok ∧
    (submitPOST (.json jsonNoMessage) envAllOk []).insertAttempted = true ∧
    (submitPOST (.json jsonNoMessage) envAllOk []).inserted = true := by
  decide

/-- C2 (amended): only the multipart branch validates — a multipart request
with a missing or empty message, receiver, latitude or longitude fails with
400, attempts no insert and leaves blob storage untouched, while a JSON
request always goes straight to the insert. -/
theorem submitPOST_multipart_validation
    (message receiver latitude longitude : Option String)
    (image : Option UploadedImage) (env : SubmitEnv) (blobs0 : List String)
    (h : (falsyOpt message || falsyOpt receiver || falsyOpt latitude ||
      falsyOpt longitude) = true) :
    submitPOST (.multipart message receiver latitude longitude image) env
        blobs0 =
      { resp := .badRequest, insertAttempted := false, inserted := false,
        blobs := blobs0 } ∧
    ∀ b : JsonBody, (submitPOST (.json b) env blobs0).insertAttempted = true := by
  constructor
  · simp [submitPOST, h]
  · intro b
    cases hdb : env.dbInsertFails <;> simp [submitPOST, hdb]

/-- Witness for C2 (amended): a multipart request missing its message. -/
theorem submitPOST_multipart_validation_witness :
    submitPOST (.multipart none (some "bob") (some "1") (some "2") none)
        envAllOk [] =
      { resp := .badRequest, insertAttempted := false, inserted := false,
        blobs := [] } ∧
    ∀ b : JsonBody, (submitPOST (.json b) envAllOk []).insertAttempted = true :=
  submitPOST_multipart_validation none (some "bob") (some "1") (some "2")
    none envAllOk [] (by decide)

/-- C3: when a multipart create passes validation, the image upload succeeds
and the database insert then fails, the handler removes the uploaded blob
before responding 500 — storage is exactly what it was before the request. -/
theorem submitPOST_insert_failure_cleanup
    (message receiver latitude longitude : Option String)
    (file : UploadedImage) (env : SubmitEnv) (blobs0 : List String)
    (hval : (falsyOpt message || falsyOpt receiver || falsyOpt latitude ||
      falsyOpt longitude) = false)
    (hsz : 0 < file.size) (hup : env.uploadFails = false)
    (hdb : env.dbInsertFails = true)
    (hfresh : ("images/" ++ env.freshName ++ "." ++ fileExt file.name)
      ∉ blobs0) :
    (submitPOST (.multipart message receiver latitude longitude (some file))
        env blobs0).resp = .serverError ∧
    (submitPOST (.multipart message receiver latitude longitude (some file))
        env blobs0).blobs = blobs0 ∧
    ("images/" ++ env.freshName ++ "." ++ fileExt file.name)
      ∉ (submitPOST (.multipart message receiver latitude longitude
          (some file)) env blobs0).blobs := by
  refine ⟨?_, ?_, ?_⟩ <;>
    simp [submitPOST, insertWithCleanup, hval, hsz, hup, hdb, hfresh]
  intro a ha hq
  exact hfresh (hq ▸ ha)

/-- Witness for C3 at a concrete request. -/
theorem submitPOST_insert_failure_cleanup_witness :
    (submitPOST (.multipart (some "hi") (some "bob") (some "1") (some "2")
        (some photoFile)) envInsertFails []).resp = .serverError ∧
    (submitPOST (.multipart (some "hi") (some "bob") (some "1") (some "2")
        (some photoFile)) envInsertFails []).blobs = [] ∧
    ("images/" ++ envInsertFails.freshName ++ "." ++ fileExt photoFile.name)
      ∉ (submitPOST (.multipart (some "hi") (some "bob") (some "1")
          (some "2") (some photoFile)) envInsertFails []).blobs :=
  submitPOST_insert_failure_cleanup (some "hi") (some "bob") (some "1")
    (some "2") photoFile envInsertFails [] (by decide) (by decide) rfl rfl
    (by decide)

/-- C8: for every candidate whose preferred name is not the empty string,
the displayed name agrees with the spec's composition rule — a present
preferred name is displayed verbatim, and otherwise the raw name is followed
by the comma-joined present context names in the order place, region,
country. -/
theorem getDisplayName_spec (s : SearchBoxSuggestion)
    (h : s.name_preferred ≠ some "") :
    getDisplayName s = specDisplayName s := by
  cases hp : s.name_preferred with
  | some p =>
    have hp' : p ≠ "" := by
      intro he
      exact h (he ▸ hp)
    simp [getDisplayName, specDisplayName, truthyStr, hp, hp']
  | none =>
    simp only [getDisplayName, specDisplayName, truthyStr, prefOrName, hp]
    cases hc : contextNames s.context with
    | nil => simp [joinComma]
    | cons a l =>
      cases l with
      | nil => simp [joinComma]
      | cons b l => simp [joinComma, String.append_assoc]

/-- Witness for C8: the two candidates of the spec's example render as
required. -/
theorem getDisplayName_spec_witness :
    getDisplayName cafeX = "Cafe X, Paris, France" ∧
    getDisplayName cafeY = "Cafe Y" := by
  have h1 := getDisplayName_spec cafeX (by decide)
  have h2 := getDisplayName_spec cafeY (by decide)
  rw [h1, h2]
  decide

/-- C9: a whitespace-only query short-circuits `fetchSearchSuggestions`: no
network effect is emitted, the suggestion list is cleared, the panel is
hidden, and the rest of the state (query text, session token) is
untouched. -/
theorem suggest_blank_query (s : SearchState) (q : String)
    (resp : SuggestResp) (h : trimStr q = "") :
    (fetchSearchSuggestions s q resp).2 = [] ∧
    (fetchSearchSuggestions s q resp).1.results = [] ∧
    (fetchSearchSuggestions s q resp).1.showResults = false ∧
    (fetchSearchSuggestions s q resp).1.searchTerm = s.searchTerm ∧
    (fetchSearchSuggestions s q resp).1.sessionToken = s.sessionToken := by
  refine ⟨?_, ?_, ?_, ?_, ?_⟩ <;> simp [fetchSearchSuggestions, h]

/-- Witness for C9 on the literal three-space query. -/
theorem suggest_blank_query_witness :
    (fetchSearchSuggestions initialSearchState "   " (.ok [cafeX])).2 = [] ∧
    (fetchSearchSuggestions initialSearchState "   "
      (.ok [cafeX])).1.results = [] ∧
    (fetchSearchSuggestions initialSearchState "   "
      (.ok [cafeX])).1.showResults = false ∧
    (fetchSearchSuggestions initialSearchState "   "
      (.ok [cafeX])).1.searchTerm = initialSearchState.searchTerm ∧
    (fetchSearchSuggestions initialSearchState "   "
      (.ok [cafeX])).1.sessionToken = initialSearchState.sessionToken :=
  suggest_blank_query initialSearchState "   " (.ok [cafeX]) (by decide)

/-- C6: a retrieve that fails or resolves no feature emits only the retrieve
request itself — no location-selected or temporary-marker event — leaves the
query text, session token and suggestion list unchanged, and hides the
results panel.  (The component state has no error field, so no blocking
error can be surfaced.) -/
theorem retrieve_failure_noop (s : SearchState) (mapboxId : String)
    (resp : RetrieveResp) (h : retrieveSucceeds resp = false) :
    (retrieveLocation s mapboxId resp).2 =
      [SearchEffect.retrieveRequest mapboxId s.sessionToken] ∧
    (retrieveLocation s mapboxId resp).1.searchTerm = s.searchTerm ∧
    (retrieveLocation s mapboxId resp).1.sessionToken = s.sessionToken ∧
    (retrieveLocation s mapboxId resp).1.nextToken = s.nextToken ∧
    (retrieveLocation s mapboxId resp).1.results = s.results ∧
    (retrieveLocation s mapboxId resp).1.showResults = false := by
  cases resp with
  | fail => simp [retrieveLocation]
  | ok feats =>
    cases feats with
    | nil => simp [retrieveLocation]
    | cons f fs => simp [retrieveSucceeds] at h

/-- Witness for C6 on a concrete empty retrieve response. -/
theorem retrieve_failure_noop_witness :
    (retrieveLocation initialSearchState "idX" (.ok [])).2 =
      [SearchEffect.retrieveRequest "idX" initialSearchState.sessionToken] ∧
    (retrieveLocation initialSearchState "idX" (.ok [])).1.searchTerm =
      initialSearchState.searchTerm ∧
    (retrieveLocation initialSearchState "idX" (.ok [])).1.sessionToken =
      initialSearchState.sessionToken ∧
    (retrieveLocation initialSearchState "idX" (.ok [])).1.nextToken =
      initialSearchState.nextToken ∧
    (retrieveLocation initialSearchState "idX" (.ok [])).1.results =
      initialSearchState.results ∧
    (retrieveLocation initialSearchState "idX" (.ok [])).1.showResults =
      false :=
  retrieve_failure_noop initialSearchState "idX" (.ok []) (by decide)

/-- C4: across every controller event, the session token changes exactly
when the event performs a retrieve that succeeds with a feature; every
suggest and retrieve request emitted by the event still carries the
pre-event token; and the freshness invariant `sessionToken < nextToken` is
preserved, so the rotated token (and hence the token of the first suggest
after a successful retrieve) differs from the one used by the completed
suggest/retrieve pair. -/
theorem sessionToken_lifecycle (s : SearchState) (e : SearchEvent)
    (h : s.sessionToken < s.nextToken) :
    (eventRetrieves s e = true →
      (searchStep s e).1.sessionToken ≠ s.sessionToken) ∧
    (eventRetrieves s e = false →
      (searchStep s e).1.sessionToken = s.sessionToken) ∧
    (∀ q t, SearchEffect.suggestRequest q t ∈ (searchStep s e).2 →
      t = s.sessionToken) ∧
    (∀ i t, SearchEffect.retrieveRequest i t ∈ (searchStep s e).2 →
      t = s.sessionToken) ∧
    (searchStep s e).1.sessionToken < (searchStep s e).1.nextToken := by
  cases e with
  | input q =>
    simp [searchStep, handleInputChange, eventRetrieves, h]
  | clickOutside =>
    simp [searchStep, handleClickOutside, eventRetrieves, h]
  | timerFire resp =>
    cases hd : s.debounceTimer with
    | none => simp [searchStep, debounceFire, eventRetrieves, hd, h]
    | some qd =>
      rcases qd with ⟨q, d⟩
      by_cases hq : trimStr q = "" <;> cases resp <;>
        simp [searchStep, debounceFire, fetchSearchSuggestions,
          eventRetrieves, hd, hq, h]
  | enterKey sresp rresp =>
    cases hr : s.results with
    | nil =>
      by_cases hq : trimStr s.searchTerm = "" <;> cases sresp <;>
        simp [searchStep, handleKeyDown, fetchSearchSuggestions,
          eventRetrieves, hr, hq, h]
    | cons r rs =>
      cases rresp with
      | fail =>
        simp [searchStep, handleKeyDown, retrieveLocation, eventRetrieves,
          retrieveSucceeds, hr, h]
      | ok feats =>
        cases feats with
        | nil =>
          simp [searchStep, handleKeyDown, retrieveLocation, eventRetrieves,
            retrieveSucceeds, hr, h]
        | cons f fs =>
          simp [searchStep, handleKeyDown, retrieveLocation, eventRetrieves,
            retrieveSucceeds, generateSessionToken, hr, h]
          omega
  | resultClick sug rresp =>
    cases rresp with
    | fail =>
      simp [searchStep, handleResultClick, retrieveLocation, eventRetrieves,
        retrieveSucceeds, h]
    | ok feats =>
      cases feats with
      | nil =>
        simp [searchStep, handleResultClick, retrieveLocation,
          eventRetrieves, retrieveSucceeds, h]
      | cons f fs =>
        simp [searchStep, handleResultClick, retrieveLocation,
          eventRetrieves, retrieveSucceeds, generateSessionToken, h]
        omega

/-- Witness for C4: from the initial state, clicking a suggestion whose
retrieve succeeds rotates the token, and the emitted retrieve request still
carries the old token. -/
theorem sessionToken_lifecycle_witness :
    eventRetrieves initialSearchState
      (.resultClick cafeX (.ok [parisFeature])) = true ∧
    (searchStep initialSearchState
      (.resultClick cafeX (.ok [parisFeature]))).1.sessionToken ≠
        initialSearchState.sessionToken ∧
    (∀ i t, SearchEffect.retrieveRequest i t ∈
      (searchStep initialSearchState
        (.resultClick cafeX (.ok [parisFeature]))).2 →
      t = initialSearchState.sessionToken) := by
  have h := sessionToken_lifecycle initialSearchState
    (.resultClick cafeX (.ok [parisFeature])) (by decide)
  exact ⟨by decide, h.1 (by decide), h.2.2.2.1⟩

/-- Folding the event interpreter from an effect accumulator prepends that
accumulator to the effects of the run. -/
theorem runEvents_acc (es : List SearchEvent) (s : SearchState)
    (out : List SearchEffect) :
    es.foldl
        (fun acc e => ((searchStep acc.1 e).1, acc.2 ++ (searchStep acc.1 e).2))
        (s, out) =
      ((runEvents s es).1, out ++ (runEvents s es).2) := by
  induction es generalizing s out with
  | nil => simp [runEvents]
  | cons e es ih =>
    simp only [runEvents, List.foldl_cons, List.nil_append] at *
    rw [ih ((searchStep s e).1) (out ++ (searchStep s e).2),
      ih ((searchStep s e).1) ((searchStep s e).2)]
    simp

/-- Unfolding one event of a run. -/
theorem runEvents_cons (s : SearchState) (e : SearchEvent)
    (es : List SearchEvent) :
    runEvents s (e :: es) =
      ((runEvents (searchStep s e).1 es).1,
        (searchStep s e).2 ++ (runEvents (searchStep s e).1 es).2) := by
  simp only [runEvents, List.foldl_cons]
  exact runEvents_acc es (searchStep s e).1 (searchStep s e).2

/-- A burst of keystrokes emits no effect at all and leaves the state as the
last keystroke wrote it: its text displayed and a single armed timer
capturing it. -/
theorem runEvents_inputs (qs : List String) (s : SearchState) (q : String) :
    runEvents s ((qs ++ [q]).map SearchEvent.input) =
      ({ s with searchTerm := q,
                debounceTimer := some (q, debounceDelayMs) }, []) := by
  induction qs generalizing s with
  | nil => simp [runEvents, searchStep, handleInputChange]
  | cons q0 qs ih =>
    rw [List.cons_append, List.map_cons, runEvents_cons]
    simp only [searchStep, handleInputChange]
    rw [ih]
    simp

/-- C5: typing any non-empty burst of keystrokes issues no network call
while typing — each keystroke overwrites the pending timer — and when the
armed timer then fires it performs exactly one suggest call, carrying the
text of the last keystroke (or no call at all if that text is blank). -/
theorem debounce_last_write_wins (s : SearchState) (qs : List String)
    (resp : SuggestResp) (h : qs ≠ []) :
    (runEvents s (qs.map SearchEvent.input)).2 = [] ∧
    (runEvents s (qs.map SearchEvent.input)).1.searchTerm = qs.getLast h ∧
    (runEvents s (qs.map SearchEvent.input)).1.debounceTimer =
      some (qs.getLast h, debounceDelayMs) ∧
    (searchStep (runEvents s (qs.map SearchEvent.input)).1
        (SearchEvent.timerFire resp)).2 =
      (if trimStr (qs.getLast h) = "" then ([] : List SearchEffect)
       else [SearchEffect.suggestRequest (qs.getLast h) s.sessionToken]) := by
  have hqs : qs.dropLast ++ [qs.getLast h] = qs :=
    List.dropLast_append_getLast h
  have hrun := runEvents_inputs qs.dropLast s (qs.getLast h)
  rw [hqs] at hrun
  rw [hrun]
  refine ⟨rfl, rfl, rfl, ?_⟩
  by_cases hq : trimStr (qs.getLast h) = "" <;>
    cases resp <;>
      simp [searchStep, debounceFire, fetchSearchSuggestions, hq]

/-- Witness for C5: typing "par", "pari", "paris" inside one quiet period
issues exactly one suggest call, with "paris". -/
theorem debounce_last_write_wins_witness :
    (runEvents initialSearchState
      (["par", "pari", "paris"].map SearchEvent.input)).2 = [] ∧
    (searchStep
        (runEvents initialSearchState
          (["par", "pari", "paris"].map SearchEvent.input)).1
        (SearchEvent.timerFire (SuggestResp.ok []))).2 =
      [SearchEffect.suggestRequest "paris"
        initialSearchState.sessionToken] := by
  have h := debounce_last_write_wins initialSearchState
    ["par", "pari", "paris"] (SuggestResp.ok []) (by decide)
  refine ⟨h.1, ?_⟩
  rw [h.2.2.2]
  decide

/-- C10: a submission attempt emits no pin exactly when it fails (marker
unset, a trimmed field blank, the request erroring, or the response carrying
no row with a truthy id); on failure the message, receiver, marker and
form-visibility are untouched and only an inline error message is set, and
on success a pin is emitted, the fields and marker are cleared, the form is
closed and no error is shown. -/
theorem handleSubmit_spec (s : PanelFormState) (resp : PanelSubmitResp) :
    ((handleSubmit s resp).newPin = none ↔ submitFails s resp = true) ∧
    (submitFails s resp = true →
      (handleSubmit s resp).state.message = s.message ∧
      (handleSubmit s resp).state.receiver = s.receiver ∧
      (handleSubmit s resp).state.markerLocation = s.markerLocation ∧
      (handleSubmit s resp).state.showForm = s.showForm ∧
      (handleSubmit s resp).state.errorMessage.isSome = true) ∧
    (submitFails s resp = false →
      (handleSubmit s resp).newPin.isSome = true ∧
      (handleSubmit s resp).state.message = "" ∧
      (handleSubmit s resp).state.receiver = "" ∧
      (handleSubmit s resp).state.markerLocation = none ∧
      (handleSubmit s resp).state.showForm = false ∧
      (handleSubmit s resp).state.errorMessage = none) := by
  cases hm : s.markerLocation with
  | none => simp [handleSubmit, submitFails, hm]
  | some loc =>
    by_cases hmsg : trimStr s.message = ""
    · simp [handleSubmit, submitFails, hm, hmsg]
    · by_cases hrcv : trimStr s.receiver = ""
      · simp [handleSubmit, submitFails, hm, hmsg, hrcv]
      · cases resp with
        | httpError => simp [handleSubmit, submitFails, hm, hmsg, hrcv]
        | ok rows =>
          cases rows with
          | nil => simp [handleSubmit, submitFails, hm, hmsg, hrcv]
          | cons row rest =>
            by_cases hid : row.id = 0 <;>
              simp [handleSubmit, submitFails, hm, hmsg, hrcv, hid]

/-- Witness for C10: a fully valid submission with a one-row response clears
the form and emits the pin. -/
theorem handleSubmit_spec_witness :
    submitFails panelReady panelRespOk = false ∧
    ((handleSubmit panelReady panelRespOk).newPin.isSome = true ∧
      (handleSubmit panelReady panelRespOk).state.message = "" ∧
      (handleSubmit panelReady panelRespOk).state.receiver = "" ∧
      (handleSubmit panelReady panelRespOk).state.markerLocation = none ∧
      (handleSubmit panelReady panelRespOk).state.showForm = false ∧
      (handleSubmit panelReady panelRespOk).state.errorMessage = none) :=
  ⟨by decide, (handleSubmit_spec panelReady panelRespOk).2.2 (by decide)⟩

end Pinamap
